import Mathlib

/-!
Shallow embedding of the Social Publishing Orchestrator of the
Feed-Genesis frontend repository, together with proofs of the
behavioural properties claimed by its specification.

The definitions below are translated from the TypeScript sources:
  * `src/supabase/functions/youtube-upload/index.ts` (chunked upload loop,
    token expiry check, catch handler),
  * the `youtube-oauth` edge function (`upload_video` action: token expiry
    check and refresh, chunked upload loop, catch handler),
  * `src/src/hooks/useAssetLibrary.ts` (`useSocialMediaUpload`:
    `uploadToYouTube`, `uploadToInstagram`, `uploadToFacebook`,
    `uploadToSocialMedia`),
  * the social-media upload modal (`isPlatformCompatible`),
  * `src/supabase/functions/instagram-oauth/index.ts` (catch handler).

Network calls are modelled by passing the response the platform would
give as an explicit argument, and recording in the result whether the
call was issued.
-/

/-- Asset types accepted by the social upload modal and hook
(`asset_type: 'image' | 'video' | 'content'`). -/
inductive AssetType
  | image
  | video
  | content
deriving DecidableEq

/-- A row of `user_social_connections`, as consumed by the upload hook
(`SocialConnection` interface in `useAssetLibrary.ts`).  Timestamps are
epoch milliseconds; `token_expires_at = none` models a null column. -/
structure SocialConnection where
  id : String
  platform : String
  access_token : String
  refresh_token : Option String
  token_expires_at : Option Int
  is_active : Bool
deriving DecidableEq

/-- The asset handed to the upload functions (`AssetToUpload`). -/
structure AssetToUpload where
  id : String
  title : String
  asset_type : AssetType
  asset_url : String
  description : Option String
  tags : List String
deriving DecidableEq

/-- Per-platform result returned by each upload function
(`UploadResult` interface). -/
structure UploadResult where
  success : Bool
  platform : String
  message : String
  url : Option String
  error : Option String
deriving DecidableEq

/-! ## Resumable chunked upload loop

Translation of the transfer loop of `youtube-upload/index.ts`
(lines 150-190; the `upload_video` action of the `youtube-oauth`
function contains the same loop body).  Each iteration PUTs the span
`bytes start-(end-1)/S` where `end = min (start + chunkSize) S`, then
inspects the platform's answer:

  * status 200/201 ends the loop successfully;
  * status 308 with a `Range: bytes=0-k` header resumes at `k + 1`;
  * status 308 without a `Range` header resumes at `end`;
  * any other status throws.

The platform's answers are supplied as a list, one per PUT; an empty
list means the loop would keep running (`outOfFuel`). -/

/-- Source: `const chunkSize = 1024 * 1024 * 5; // 5MB chunks`. -/
def chunkSize : Nat := 1024 * 1024 * 5

/-- Platform answer to one chunk PUT: terminal success (200/201),
continue (308) optionally acknowledging the highest received byte
offset, or any other (failing) status. -/
inductive ChunkResp
  | success
  | cont (range : Option Nat)
  | fail
deriving DecidableEq

/-- One `Content-Range` span as sent on the wire: inclusive first and
last byte offsets and the declared total size
(`bytes first-last/total`). -/
structure Span where
  first : Nat
  last : Nat
  total : Nat
deriving DecidableEq

/-- The rendered `Content-Range` header of a span. -/
def contentRangeHeader (sp : Span) : String :=
  "bytes " ++ toString sp.first ++ "-" ++ toString sp.last ++ "/" ++ toString sp.total

/-- How the transfer loop ended: terminal success, a thrown error on a
non-200/201/308 status, or the supplied answer list ran out while the
loop was still going. -/
inductive LoopOutcome
  | completed
  | failed
  | outOfFuel
deriving DecidableEq

/-- The chunk-PUT loop, started at byte `start` of a payload of `S`
bytes, consuming one platform answer per PUT.  Returns the spans sent
(in order) and how the loop ended. -/
def uploadChunksGo (S : Nat) (start : Nat) : List ChunkResp → List Span × LoopOutcome
  | [] => ([], LoopOutcome.outOfFuel)
  | r :: rest =>
    let e := min (start + chunkSize) S
    let sp : Span := ⟨start, e - 1, S⟩
    match r with
    | ChunkResp.success => ([sp], LoopOutcome.completed)
    | ChunkResp.fail => ([sp], LoopOutcome.failed)
    | ChunkResp.cont (some k) =>
      let t := uploadChunksGo S (k + 1) rest
      (sp :: t.1, t.2)
    | ChunkResp.cont none =>
      let t := uploadChunksGo S e rest
      (sp :: t.1, t.2)

/-- The loop as run by the source: `let start = 0; while (!uploadComplete) ...`. -/
def uploadChunks (S : Nat) (resps : List ChunkResp) : List Span × LoopOutcome :=
  uploadChunksGo S 0 resps

/-- Split a character list at every dash, as `range.split('-')` does. -/
def splitDashAux : List Char → List Char → List (List Char)
  | [], acc => [acc.reverse]
  | c :: cs, acc =>
    if c = '-' then acc.reverse :: splitDashAux cs []
    else splitDashAux cs (c :: acc)

/-- Behaviour of `parseInt` on a digit string (the well-formed case;
`parseInt` yields `NaN` on anything else, modelled as `none`). -/
def parseDigits : List Char → Option Nat
  | [] => none
  | cs => cs.foldl (fun acc c => acc.bind (fun n =>
      if c.isDigit then some (n * 10 + (c.toNat - 48)) else none)) (some 0)

/-- Source: `parseInt(range.split('-')[1])` applied to a
`Range: bytes=0-k` header value: the acknowledged highest byte offset. -/
def parseRangeEnd (range : String) : Option Nat :=
  ((splitDashAux range.toList []).get? 1).bind parseDigits

/-- Answer script of a clean run starting at byte `start`: every
non-terminal chunk PUT is answered 308 with no `Range` header (no
retransmission requested) and the terminal chunk is answered with the
success status.  `fuel` bounds the recursion; `fuel = S` always
suffices since every chunk moves `start` forward by at least one. -/
def cleanRespsAux (S : Nat) : Nat → Nat → List ChunkResp
  | 0, _ => []
  | fuel + 1, start =>
    if start + chunkSize < S then
      ChunkResp.cont none :: cleanRespsAux S fuel (start + chunkSize)
    else
      [ChunkResp.success]

/-- Answer script of a clean run of a whole payload of `S` bytes. -/
def cleanResps (S : Nat) : List ChunkResp := cleanRespsAux S S 0

/-- A span list is contiguous when each span starts exactly one byte
after the previous one ends. -/
def contiguousB : List Span → Bool
  | [] => true
  | [_] => true
  | a :: b :: rest => (b.first == a.last + 1) && contiguousB (b :: rest)

theorem contiguousB_cons_cons (a b : Span) (rest : List Span) :
    contiguousB (a :: b :: rest) = ((b.first == a.last + 1) && contiguousB (b :: rest)) := rfl

/-- Head span of the loop output starts at the current offset, and the
output is nonempty whenever at least one answer is available. -/
theorem uploadChunksGo_head (S start : Nat) (r : ChunkResp) (rest : List ChunkResp) :
    ∃ sp tl, (uploadChunksGo S start (r :: rest)).1 = sp :: tl ∧
      sp.first = start ∧ sp.last = min (start + chunkSize) S - 1 ∧ sp.total = S := by
  cases r with
  | success => exact ⟨_, _, rfl, rfl, rfl, rfl⟩
  | fail => exact ⟨_, _, rfl, rfl, rfl, rfl⟩
  | cont o =>
    cases o with
    | none => exact ⟨_, _, rfl, rfl, rfl, rfl⟩
    | some k => exact ⟨_, _, rfl, rfl, rfl, rfl⟩

/-- Invariant of a clean run from offset `start`: the loop completes,
and the spans it sends start at `start`, are contiguous, each carry
total `S`, each are nonempty and at most one chunk long, together hold
exactly `S - start` bytes, and the last one ends at byte `S - 1`. -/
theorem uploadChunksGo_clean (S : Nat) :
    ∀ fuel start, start < S → S ≤ start + fuel * chunkSize →
      (uploadChunksGo S start (cleanRespsAux S fuel start)).2 = LoopOutcome.completed ∧
      ∃ sp tl, (uploadChunksGo S start (cleanRespsAux S fuel start)).1 = sp :: tl ∧
        sp.first = start ∧
        contiguousB (sp :: tl) = true ∧
        (∀ s ∈ sp :: tl, s.total = S ∧ s.first ≤ s.last ∧ s.last + 1 - s.first ≤ chunkSize) ∧
        ((sp :: tl).map (fun s => s.last + 1 - s.first)).sum = S - start ∧
        ((sp :: tl).getLast (by simp)).last = S - 1 := by
  have hcs : 0 < chunkSize := by norm_num [chunkSize]
  intro fuel
  induction fuel with
  | zero =>
    intro start hlt hle
    simp only [Nat.zero_mul, Nat.add_zero] at hle
    omega
  | succ n ih =>
    intro start hlt hle
    rw [Nat.succ_mul] at hle
    by_cases hc : start + chunkSize < S
    · -- non-terminal chunk: answered 308 with no Range, resume at start + chunkSize
      have hrec := ih (start + chunkSize) hc (by omega)
      have hmin : min (start + chunkSize) S = start + chunkSize := by omega
      obtain ⟨hout, sp, tl, hspans, hfirst, hchain, hall, hsum, hlast⟩ := hrec
      have hresps : cleanRespsAux S (n + 1) start =
          ChunkResp.cont none :: cleanRespsAux S n (start + chunkSize) := by
        simp [cleanRespsAux, hc]
      have hgo : uploadChunksGo S start (cleanRespsAux S (n + 1) start) =
          (⟨start, min (start + chunkSize) S - 1, S⟩ ::
            (uploadChunksGo S (start + chunkSize) (cleanRespsAux S n (start + chunkSize))).1,
           (uploadChunksGo S (start + chunkSize) (cleanRespsAux S n (start + chunkSize))).2) := by
        rw [hresps]
        simp [uploadChunksGo, hmin]
      constructor
      · rw [hgo]; exact hout
      · refine ⟨⟨start, min (start + chunkSize) S - 1, S⟩, sp :: tl, ?_, rfl, ?_, ?_, ?_, ?_⟩
        · rw [hgo, hspans]
        · rw [contiguousB_cons_cons]
          simp only [hchain, Bool.and_true, beq_iff_eq, hfirst, hmin]
          omega
        · intro s hs
          rcases List.mem_cons.mp hs with h | h
          · subst h
            refine ⟨rfl, ?_, ?_⟩ <;> simp only [hmin] <;> omega
          · exact hall s h
        · simp only [List.map_cons, List.sum_cons] at hsum ⊢
          simp only [hmin]
          omega
        · rw [List.getLast_cons]
          exact hlast
    · -- terminal chunk: the whole remainder fits, answered with success
      have hresps : cleanRespsAux S (n + 1) start = [ChunkResp.success] := by
        simp [cleanRespsAux, hc]
      have hmin : min (start + chunkSize) S = S := by omega
      have hgo : uploadChunksGo S start (cleanRespsAux S (n + 1) start) =
          ([⟨start, S - 1, S⟩], LoopOutcome.completed) := by
        rw [hresps]
        simp [uploadChunksGo, hmin]
      rw [hgo]
      refine ⟨rfl, ⟨start, S - 1, S⟩, [], rfl, rfl, rfl, ?_, ?_, ?_⟩
      · intro s hs
        simp only [List.mem_singleton] at hs
        subst hs
        refine ⟨rfl, ?_, ?_⟩
        · show start ≤ S - 1
          omega
        · show S - 1 + 1 - start ≤ chunkSize
          omega
      · simp only [List.map_cons, List.map_nil, List.sum_cons, List.sum_nil, Nat.add_zero]
        omega
      · simp

/-- C2: on a clean run (every non-terminal chunk PUT answered with the
continue status and no retransmission requested) over a payload of
`S > 0` bytes, the loop completes and the `Content-Range` spans it sent
start at byte 0, are contiguous, each declare total `S` and are
inclusive-inclusive of the form `bytes first-last/S`, each hold at most
`chunkSize` bytes, together hold exactly `S` bytes (covering `[0, S)`
exactly once with no overlap), and the final span ends at byte
`S - 1`. -/
theorem cleanRun_spans_cover (S : Nat) (hS : 0 < S) :
    (uploadChunks S (cleanResps S)).2 = LoopOutcome.completed ∧
    ∃ sp tl, (uploadChunks S (cleanResps S)).1 = sp :: tl ∧
      sp.first = 0 ∧
      contiguousB (sp :: tl) = true ∧
      (∀ s ∈ sp :: tl, s.total = S ∧ s.first ≤ s.last ∧ s.last + 1 - s.first ≤ chunkSize ∧
        contentRangeHeader s =
          "bytes " ++ toString s.first ++ "-" ++ toString s.last ++ "/" ++ toString S) ∧
      ((sp :: tl).map (fun s => s.last + 1 - s.first)).sum = S ∧
      ((sp :: tl).getLast (by simp)).last = S - 1 := by
  have hfuel : S ≤ 0 + S * chunkSize := by
    have h1 : S * 1 ≤ S * chunkSize :=
      Nat.mul_le_mul_left S (by norm_num [chunkSize])
    simpa using h1
  obtain ⟨hout, sp, tl, hspans, hfirst, hchain, hall, hsum, hlast⟩ :=
    uploadChunksGo_clean S S 0 hS hfuel
  refine ⟨hout, sp, tl, hspans, hfirst, hchain, ?_, ?_, hlast⟩
  · intro s hs
    obtain ⟨h1, h2, h3⟩ := hall s hs
    exact ⟨h1, h2, h3, by simp [contentRangeHeader, h1]⟩
  · simpa using hsum

/-- Closed instance of `cleanRun_spans_cover` at `S` = two full chunks
plus five bytes. -/
theorem cleanRun_spans_cover_witness :
    0 < 10485765 ∧
    ((uploadChunks 10485765 (cleanResps 10485765)).2 = LoopOutcome.completed ∧
    ∃ sp tl, (uploadChunks 10485765 (cleanResps 10485765)).1 = sp :: tl ∧
      sp.first = 0 ∧
      contiguousB (sp :: tl) = true ∧
      (∀ s ∈ sp :: tl, s.total = 10485765 ∧ s.first ≤ s.last ∧
        s.last + 1 - s.first ≤ chunkSize ∧
        contentRangeHeader s =
          "bytes " ++ toString s.first ++ "-" ++ toString s.last ++ "/" ++ toString 10485765) ∧
      ((sp :: tl).map (fun s => s.last + 1 - s.first)).sum = 10485765 ∧
      ((sp :: tl).getLast (by simp)).last = 10485765 - 1) :=
  ⟨by norm_num, cleanRun_spans_cover 10485765 (by norm_num)⟩

/-- C3: after a 308 continue answer, the next PUT resumes at the
acknowledged offset plus one when a `Range` header is present, and
exactly one chunk (or the remaining length, if smaller) past the
previous start when it is absent; and the acknowledged offset of the
header `bytes=0-5242879` parses to 5242879, so a 5 MiB chunk sent at
offset 0 and acknowledged by that header resumes at byte 5242880. -/
theorem resume_after_continue (S start k : Nat) (r2 : ChunkResp) (rest : List ChunkResp) :
    (∃ sp2 tl, (uploadChunksGo S start (ChunkResp.cont (some k) :: r2 :: rest)).1 =
        ⟨start, min (start + chunkSize) S - 1, S⟩ :: sp2 :: tl ∧ sp2.first = k + 1) ∧
    (∃ sp2 tl, (uploadChunksGo S start (ChunkResp.cont none :: r2 :: rest)).1 =
        ⟨start, min (start + chunkSize) S - 1, S⟩ :: sp2 :: tl ∧
        sp2.first = min (start + chunkSize) S) ∧
    parseRangeEnd "bytes=0-5242879" = some 5242879 ∧
    parseRangeEnd "bytes=0-5242879" = some (5242880 - 1) := by
  have hsome : uploadChunksGo S start (ChunkResp.cont (some k) :: r2 :: rest) =
      (Span.mk start (min (start + chunkSize) S - 1) S ::
         (uploadChunksGo S (k + 1) (r2 :: rest)).1,
       (uploadChunksGo S (k + 1) (r2 :: rest)).2) := rfl
  have hnone : uploadChunksGo S start (ChunkResp.cont none :: r2 :: rest) =
      (Span.mk start (min (start + chunkSize) S - 1) S ::
         (uploadChunksGo S (min (start + chunkSize) S) (r2 :: rest)).1,
       (uploadChunksGo S (min (start + chunkSize) S) (r2 :: rest)).2) := rfl
  refine ⟨?_, ?_, by decide, by decide⟩
  · obtain ⟨sp2, tl, heq, hfst, _, _⟩ := uploadChunksGo_head S (k + 1) r2 rest
    refine ⟨sp2, tl, ?_, hfst⟩
    simp only [hsome, heq]
  · obtain ⟨sp2, tl, heq, hfst, _, _⟩ := uploadChunksGo_head S (min (start + chunkSize) S) r2 rest
    refine ⟨sp2, tl, ?_, hfst⟩
    simp only [hnone, heq]

/-- Helper for C4: with every PUT answered 308 without a `Range`
header, the loop consumes all `n` answers, sending one PUT per answer,
and never reaches a terminal outcome. -/
theorem uploadChunksGo_allContinue (S : Nat) :
    ∀ (n : Nat) (start : Nat),
      (uploadChunksGo S start (List.replicate n (ChunkResp.cont none))).2 =
        LoopOutcome.outOfFuel ∧
      (uploadChunksGo S start (List.replicate n (ChunkResp.cont none))).1.length = n := by
  intro n
  induction n with
  | zero => intro start; exact ⟨rfl, rfl⟩
  | succ m ih =>
    intro start
    have h := ih (min (start + chunkSize) S)
    simp only [List.replicate_succ, uploadChunksGo, List.length_cons]
    exact ⟨h.1, by rw [h.2]⟩

/-- C4 (violated by the code): the transfer loop has no iteration cap.
For every payload size and every `n`, a platform that answers every
chunk PUT with 308 and no `Range` header keeps the loop running: after
`n` answers the loop has issued exactly `n` chunk PUTs and has not
terminated, so no bound on the number of PUTs exists. -/
theorem uploadChunks_allContinue_unbounded (S n : Nat) :
    (uploadChunks S (List.replicate n (ChunkResp.cont none))).2 = LoopOutcome.outOfFuel ∧
    (uploadChunks S (List.replicate n (ChunkResp.cont none))).1.length = n :=
  uploadChunksGo_allContinue S n 0

/-! ## Token lifecycle

Two implementations check token expiry before a YouTube upload:

  * `youtube-upload/index.ts` lines 47-88 (`ensureValidUpload` below):
    on a missing refresh token or a failed refresh call it silently
    keeps the stale access token and proceeds;
  * the `upload_video` action of the `youtube-oauth` function
    (`ensureValidOAuth` below): on a missing refresh token or a failed
    refresh call it throws, aborting the upload.

The refresh endpoint's answer is passed in as `refresh`; the results
record whether the refresh call was issued and whether the refreshed
credential was written back to the store. -/

/-- JSON answer of `https://oauth2.googleapis.com/token` together with
the HTTP-level `ok` flag. -/
structure RefreshResponse where
  ok : Bool
  access_token : String
  expires_in : Int
deriving DecidableEq

/-- Outcome of the token-expiry-and-refresh step: continue into the
upload with the given access token, or abort with a thrown message.
Both record whether the refresh endpoint was called; `proceed` also
records whether the credential store was updated. -/
inductive TokenStepResult
  | proceed (accessToken : String) (refreshCalled : Bool) (dbWritten : Bool)
  | failed (message : String) (refreshCalled : Bool)
deriving DecidableEq

/-- Whether the step aborted the upload. -/
def TokenStepResult.isFailed : TokenStepResult → Bool
  | TokenStepResult.failed _ _ => true
  | TokenStepResult.proceed _ _ _ => false

/-- Whether the step issued the token-refresh HTTP call. -/
def TokenStepResult.calledRefresh : TokenStepResult → Bool
  | TokenStepResult.failed _ c => c
  | TokenStepResult.proceed _ c _ => c

/-- Token check of `youtube-upload/index.ts` (lines 47-88): refresh
when within 5 minutes of expiry, but silently fall through to the
upload with the old token when no refresh token exists or the refresh
call is not `ok`. -/
def ensureValidUpload (conn : SocialConnection) (now : Int)
    (refresh : RefreshResponse) : TokenStepResult :=
  match conn.token_expires_at with
  | none => TokenStepResult.proceed conn.access_token false false
  | some exp =>
    if exp - now ≤ 300000 then
      match conn.refresh_token with
      | some _ =>
        if refresh.ok then TokenStepResult.proceed refresh.access_token true true
        else TokenStepResult.proceed conn.access_token true false
      | none => TokenStepResult.proceed conn.access_token false false
    else TokenStepResult.proceed conn.access_token false false

/-- Token check of the `upload_video` action of the `youtube-oauth`
function: refresh when within 5 minutes of expiry, and throw when no
refresh token exists or the refresh call is not `ok`. -/
def ensureValidOAuth (conn : SocialConnection) (now : Int)
    (refresh : RefreshResponse) : TokenStepResult :=
  match conn.token_expires_at with
  | none => TokenStepResult.proceed conn.access_token false false
  | some exp =>
    if exp - now ≤ 300000 then
      match conn.refresh_token with
      | some _ =>
        if refresh.ok then TokenStepResult.proceed refresh.access_token true true
        else TokenStepResult.failed "Failed to refresh access token" true
      | none =>
        TokenStepResult.failed
          "No refresh token available - please reconnect your YouTube account" false
    else TokenStepResult.proceed conn.access_token false false

/-- A credential expired one second ago with no refresh token. -/
def staleConn : SocialConnection :=
  { id := "yt1", platform := "youtube", access_token := "stale-token",
    refresh_token := none, token_expires_at := some 999000, is_active := true }

/-- A credential expired one second ago whose refresh token exists but
whose refresh call will be answered non-2xx. -/
def staleConnWithRefresh : SocialConnection :=
  { id := "yt2", platform := "youtube", access_token := "stale-token-2",
    refresh_token := some "rt", token_expires_at := some 999000, is_active := true }

/-- C5 counterexample: in `youtube-upload/index.ts`, a credential
expired one second ago (`expiresAt` = 999000 at `now` = 1000000) with
no refresh token does NOT fail — the step proceeds with the stale
access token (and likewise when a refresh token exists but the refresh
call is answered non-2xx). -/
theorem ensureValidUpload_staleToken_counterexample :
    ensureValidUpload staleConn 1000000 ⟨false, "", 0⟩ =
      TokenStepResult.proceed "stale-token" false false ∧
    ensureValidUpload staleConnWithRefresh 1000000 ⟨false, "", 0⟩ =
      TokenStepResult.proceed "stale-token-2" true false := by
  constructor <;> rfl

/-- C5 (amended): only the `upload_video` handler of the
`youtube-oauth` function fails on a stale credential.  For every
credential within 5 minutes of expiry (or expired) whose refresh token
is absent or whose refresh call is answered non-2xx, `ensureValidOAuth`
aborts the upload (with no refresh HTTP call at all when the refresh
token is absent), whereas `ensureValidUpload` of the `youtube-upload`
function silently proceeds with the stale access token. -/
theorem ensureValidOAuth_staleCredential_fails (conn : SocialConnection)
    (now exp : Int) (refresh : RefreshResponse)
    (hexp : conn.token_expires_at = some exp)
    (hwin : exp - now ≤ 300000)
    (hbad : conn.refresh_token = none ∨ refresh.ok = false) :
    (ensureValidOAuth conn now refresh).isFailed = true ∧
    (conn.refresh_token = none →
      (ensureValidOAuth conn now refresh).calledRefresh = false) ∧
    ∃ c, ensureValidUpload conn now refresh =
      TokenStepResult.proceed conn.access_token c false := by
  rcases hbad with hnone | hnok
  · refine ⟨?_, ?_, false, ?_⟩ <;>
      simp [ensureValidOAuth, ensureValidUpload, hexp, hnone, hwin,
        TokenStepResult.isFailed, TokenStepResult.calledRefresh]
  · cases hrt : conn.refresh_token with
    | none =>
      refine ⟨?_, ?_, false, ?_⟩ <;>
        simp [ensureValidOAuth, ensureValidUpload, hexp, hrt, hwin,
          TokenStepResult.isFailed, TokenStepResult.calledRefresh]
    | some rt =>
      refine ⟨?_, ?_, true, ?_⟩ <;>
        simp [ensureValidOAuth, ensureValidUpload, hexp, hrt, hwin, hnok,
          TokenStepResult.isFailed, TokenStepResult.calledRefresh]

/-- Closed instance of `ensureValidOAuth_staleCredential_fails` at the
expired-one-second-ago, no-refresh-token credential. -/
theorem ensureValidOAuth_staleCredential_fails_witness :
    staleConn.token_expires_at = some 999000 ∧
    (999000 : Int) - 1000000 ≤ 300000 ∧
    (staleConn.refresh_token = none ∨ (RefreshResponse.mk false "" 0).ok = false) ∧
    ((ensureValidOAuth staleConn 1000000 ⟨false, "", 0⟩).isFailed = true ∧
     (staleConn.refresh_token = none →
       (ensureValidOAuth staleConn 1000000 ⟨false, "", 0⟩).calledRefresh = false) ∧
     ∃ c, ensureValidUpload staleConn 1000000 ⟨false, "", 0⟩ =
       TokenStepResult.proceed staleConn.access_token c false) :=
  ⟨rfl, by decide, Or.inl rfl,
    ensureValidOAuth_staleCredential_fails staleConn 1000000 999000 ⟨false, "", 0⟩
      rfl (by decide) (Or.inl rfl)⟩

/-- C6: for every credential whose expiry is null or more than 5
minutes past `now`, both token checks return the access token
unchanged, issue no refresh call, and write nothing to the store. -/
theorem ensureValid_fresh_noop (conn : SocialConnection) (now : Int)
    (refresh : RefreshResponse)
    (h : ∀ exp, conn.token_expires_at = some exp → 300000 < exp - now) :
    ensureValidUpload conn now refresh =
      TokenStepResult.proceed conn.access_token false false ∧
    ensureValidOAuth conn now refresh =
      TokenStepResult.proceed conn.access_token false false := by
  cases hexp : conn.token_expires_at with
  | none => exact ⟨by simp [ensureValidUpload, hexp], by simp [ensureValidOAuth, hexp]⟩
  | some exp =>
    have hgt := h exp hexp
    constructor <;>
      simp [ensureValidUpload, ensureValidOAuth, hexp] <;> omega

/-- A credential whose token expires far in the future. -/
def freshConn : SocialConnection :=
  { id := "yt3", platform := "youtube", access_token := "fresh-token",
    refresh_token := some "rt", token_expires_at := some 1000000000, is_active := true }

/-- Closed instance of `ensureValid_fresh_noop` at a credential
expiring at 1000000000 checked at `now` = 0. -/
theorem ensureValid_fresh_noop_witness :
    (∀ exp, freshConn.token_expires_at = some exp → 300000 < exp - 0) ∧
    (ensureValidUpload freshConn 0 ⟨true, "t", 3600⟩ =
      TokenStepResult.proceed "fresh-token" false false ∧
    ensureValidOAuth freshConn 0 ⟨true, "t", 3600⟩ =
      TokenStepResult.proceed "fresh-token" false false) :=
  ⟨fun exp hexp => by injection hexp with h; omega,
   ensureValid_fresh_noop freshConn 0 ⟨true, "t", 3600⟩
     (fun exp hexp => by injection hexp with h; omega)⟩

/-! ## Asset/platform compatibility (social media upload modal) -/

/-- Predicate `isPlatformCompatible` of the social-media upload modal. -/
def isPlatformCompatible (assetType : AssetType) (platform : String) : Bool :=
  match assetType with
  | AssetType.video => platform == "youtube" || platform == "facebook"
  | AssetType.image => platform == "instagram" || platform == "facebook"
  | AssetType.content => platform == "twitter" || platform == "linkedin" || platform == "facebook"

/-- C7: the compatibility predicate accepts exactly the pairs of the
table — video with youtube or facebook, image with instagram or
facebook, content with twitter, linkedin or facebook — and rejects
every other pairing. -/
theorem isPlatformCompatible_iff_table (t : AssetType) (p : String) :
    isPlatformCompatible t p = true ↔
      (t = AssetType.video ∧ (p = "youtube" ∨ p = "facebook")) ∨
      (t = AssetType.image ∧ (p = "instagram" ∨ p = "facebook")) ∨
      (t = AssetType.content ∧ (p = "twitter" ∨ p = "linkedin" ∨ p = "facebook")) := by
  cases t <;> simp [isPlatformCompatible, or_assoc]

/-! ## Per-platform upload functions (`useSocialMediaUpload`)

`uploadToYouTube` proceeds through four gates in source order:
test-mode shortcut, token expiry check and refresh, asset-type check,
asset-url readiness check; only then does it invoke the `youtube-oauth`
edge function.  The model records whether the refresh endpoint and the
edge function were called. -/

/-- Source: `String.startsWith`, expressed on the underlying
character lists. -/
def strStartsWith (s p : String) : Bool :=
  List.isPrefixOf p.toList s.toList

/-- The test-connection sniff of `uploadToYouTube`. -/
def isTestYouTubeConnection (conn : SocialConnection) : Bool :=
  conn.access_token == "demo_access_token_youtube" ||
  strStartsWith conn.access_token "test-youtube-token-" ||
  conn.id == "mock-youtube"

/-- Environment of one `uploadToYouTube` call: the clock, the refresh
endpoint's answer (used only if called), and the `youtube-oauth` edge
function's answer — `ok url` for a successful upload, `error` for an
invoke error, a thrown error, or a `success:false` body. -/
structure YouTubeEnv where
  now : Int
  refresh : RefreshResponse
  oauthUpload : Except String String

/-- Result of one `uploadToYouTube` call plus which network calls were
issued. -/
structure YouTubeRun where
  result : UploadResult
  refreshCalled : Bool
  oauthInvoked : Bool
deriving DecidableEq

/-- Function `uploadToYouTube` of `useSocialMediaUpload`. -/
def uploadToYouTube (env : YouTubeEnv) (asset : AssetToUpload)
    (conn : SocialConnection) : YouTubeRun :=
  if isTestYouTubeConnection conn then
    { result :=
        { success := true, platform := "youtube",
          message := "Successfully uploaded \"" ++ asset.title ++ "\" to YouTube (Test Mode)",
          url := some ("https://www.youtube.com/watch?v=test-video-" ++ toString env.now),
          error := none },
      refreshCalled := false, oauthInvoked := false }
  else
    let step : SocialConnection × Bool :=
      match conn.token_expires_at with
      | none => (conn, false)
      | some exp =>
        if exp - env.now ≤ 300000 then
          match conn.refresh_token with
          | some _ =>
            if env.refresh.ok then
              ({ conn with
                  access_token := env.refresh.access_token,
                  token_expires_at := some (env.now + env.refresh.expires_in * 1000) },
               true)
            else (conn, true)
          | none => (conn, false)
        else (conn, false)
    let conn2 := step.1
    let refreshCalled := step.2
    let expiredNow :=
      match conn2.token_expires_at with
      | none => false
      | some exp2 => decide (exp2 ≤ env.now)
    if expiredNow then
      { result :=
          { success := false, platform := "youtube",
            message := "YouTube token has expired. Please reconnect your account.",
            url := none, error := some "Token expired" },
        refreshCalled := refreshCalled, oauthInvoked := false }
    else if asset.asset_type ≠ AssetType.video then
      { result :=
          { success := false, platform := "youtube",
            message := "YouTube only supports video uploads.",
            url := none, error := some "Unsupported asset type" },
        refreshCalled := refreshCalled, oauthInvoked := false }
    else if asset.asset_url = "" ∨ asset.asset_url = "processing" ∨
        asset.asset_url = "pending" then
      { result :=
          { success := false, platform := "youtube",
            message := "Video is not ready for upload. Please wait for processing to complete.",
            url := none, error := some "Asset not ready" },
        refreshCalled := refreshCalled, oauthInvoked := false }
    else
      match env.oauthUpload with
      | Except.ok url =>
        { result :=
            { success := true, platform := "youtube",
              message := "Successfully uploaded \"" ++ asset.title ++ "\" to YouTube",
              url := some url, error := none },
          refreshCalled := refreshCalled, oauthInvoked := true }
      | Except.error _ =>
        { result :=
            { success := false, platform := "youtube",
              message := "Unable to upload \"" ++ asset.title ++
                "\" to YouTube. Please upload manually: " ++ asset.asset_url,
              url := none,
              error := some "Direct upload blocked by CORS policy. Please upload the video manually to your YouTube channel." },
          refreshCalled := refreshCalled, oauthInvoked := true }

/-- Function `uploadToInstagram` of `useSocialMediaUpload`: test sentinel gives
a simulated success, everything else a manual-posting failure, with no
network call in either case. -/
def uploadToInstagram (now : Int) (asset : AssetToUpload)
    (conn : SocialConnection) : UploadResult :=
  if conn.access_token == "demo_access_token_instagram" then
    { success := true, platform := "instagram",
      message := "Successfully uploaded \"" ++ asset.title ++ "\" to Instagram (Test Mode)",
      url := some ("https://www.instagram.com/p/test-post-" ++ toString now ++ "/"),
      error := none }
  else
    { success := false, platform := "instagram",
      message := "Instagram posting requires manual upload. The Instagram API has restrictions that require app review.",
      url := none, error := some "Manual posting required" }

/-- Function `uploadToFacebook` of `useSocialMediaUpload`: test sentinel gives a
simulated success, everything else a manual-posting failure, with no
network call in either case. -/
def uploadToFacebook (now : Int) (asset : AssetToUpload)
    (conn : SocialConnection) : UploadResult :=
  if conn.access_token == "demo_access_token_facebook" then
    { success := true, platform := "facebook",
      message := "Successfully uploaded \"" ++ asset.title ++ "\" to Facebook (Test Mode)",
      url := some ("https://www.facebook.com/posts/test-facebook-post-" ++ toString now),
      error := none }
  else
    { success := false, platform := "facebook",
      message := "Facebook posting will be available in a future update. For now, please post manually.",
      url := none, error := some "Manual posting required" }

/-- An image asset ready for upload. -/
def imageAsset : AssetToUpload :=
  { id := "a1", title := "Pic", asset_type := AssetType.image,
    asset_url := "https://cdn.example/p.png", description := none, tags := [] }

/-- A test-sentinel YouTube connection. -/
def demoYtConn : SocialConnection :=
  { id := "c1", platform := "youtube", access_token := "demo_access_token_youtube",
    refresh_token := none, token_expires_at := none, is_active := true }

/-- A real YouTube connection whose token expires 100 ms from `now` =
1000000 and which holds a refresh token. -/
def realExpiringYtConn : SocialConnection :=
  { id := "c2", platform := "youtube", access_token := "ya29.real",
    refresh_token := some "rt", token_expires_at := some 1000100, is_active := true }

/-- Environment at `now` = 1000000 with a healthy refresh endpoint and
a succeeding edge function. -/
def envSoon : YouTubeEnv :=
  { now := 1000000, refresh := ⟨true, "ya29.new", 3600⟩,
    oauthUpload := Except.ok "https://youtu.be/x" }

/-- C8 counterexample: the compatibility check is not up front.  For
the incompatible pair (image, youtube), a test-sentinel connection
returns `success := true` (not an incompatible-asset failure), and a
real near-expiry connection issues the token-refresh HTTP call before
the asset-type check rejects the pair. -/
theorem uploadToYouTube_compat_not_upfront_counterexample :
    (uploadToYouTube envSoon imageAsset demoYtConn).result.success = true ∧
    (uploadToYouTube envSoon imageAsset realExpiringYtConn).refreshCalled = true ∧
    (uploadToYouTube envSoon imageAsset realExpiringYtConn).result.error =
      some "Unsupported asset type" :=
  ⟨rfl, rfl, rfl⟩

/-- C8 (amended): the asset-type gate runs only after the test-mode
shortcut and the token gates.  For every real (non-test-sentinel)
connection whose token expiry is null or more than 5 minutes away, a
non-video asset makes `uploadToYouTube` return the unsupported-asset
failure with no refresh call and no edge-function invocation. -/
theorem uploadToYouTube_incompatible_fails_after_gates (env : YouTubeEnv)
    (asset : AssetToUpload) (conn : SocialConnection)
    (hreal : isTestYouTubeConnection conn = false)
    (hfresh : ∀ exp, conn.token_expires_at = some exp → 300000 < exp - env.now)
    (htype : asset.asset_type ≠ AssetType.video) :
    uploadToYouTube env asset conn =
      { result :=
          { success := false, platform := "youtube",
            message := "YouTube only supports video uploads.",
            url := none, error := some "Unsupported asset type" },
        refreshCalled := false, oauthInvoked := false } := by
  cases hexp : conn.token_expires_at with
  | none =>
    simp [uploadToYouTube, hreal, hexp, htype]
  | some exp =>
    have h1 := hfresh exp hexp
    have h2 : ¬ (exp - env.now ≤ 300000) := by omega
    have h3 : ¬ (exp ≤ env.now) := by omega
    simp [uploadToYouTube, hreal, hexp, htype, h2, h3]

/-- A real YouTube connection with a far-future token expiry. -/
def realFreshYtConn : SocialConnection :=
  { id := "c3", platform := "youtube", access_token := "ya29.fresh",
    refresh_token := some "rt", token_expires_at := some 1000000000, is_active := true }

/-- Environment at `now` = 0 with a healthy refresh endpoint and a
succeeding edge function. -/
def envZero : YouTubeEnv :=
  { now := 0, refresh := ⟨true, "t", 3600⟩, oauthUpload := Except.ok "u" }

/-- Closed instance of `uploadToYouTube_incompatible_fails_after_gates`
at an image asset and a real fresh connection checked at `now` = 0. -/
theorem uploadToYouTube_incompatible_fails_after_gates_witness :
    isTestYouTubeConnection realFreshYtConn = false ∧
    (∀ exp, realFreshYtConn.token_expires_at = some exp → 300000 < exp - envZero.now) ∧
    imageAsset.asset_type ≠ AssetType.video ∧
    uploadToYouTube envZero imageAsset realFreshYtConn =
      { result :=
          { success := false, platform := "youtube",
            message := "YouTube only supports video uploads.",
            url := none, error := some "Unsupported asset type" },
        refreshCalled := false, oauthInvoked := false } :=
  ⟨rfl, fun exp hexp => by injection hexp with h; show (300000 : Int) < exp - 0; omega,
   by decide,
   uploadToYouTube_incompatible_fails_after_gates envZero imageAsset realFreshYtConn
     rfl (fun exp hexp => by injection hexp with h; show (300000 : Int) < exp - 0; omega)
     (by decide)⟩

/-- C10: a sentinel-token connection always takes the simulated-upload
branch of its platform's upload function: `success := true`, a
synthetic post/video URL, and (recorded for YouTube) no refresh call
and no edge-function invocation; the Instagram and Facebook branches
contain no network call for any input. -/
theorem sentinel_connections_simulate (env : YouTubeEnv) (now : Int)
    (asset : AssetToUpload) (cy ci cf : SocialConnection)
    (hy : isTestYouTubeConnection cy = true)
    (hi : ci.access_token = "demo_access_token_instagram")
    (hf : cf.access_token = "demo_access_token_facebook") :
    uploadToYouTube env asset cy =
      { result :=
          { success := true, platform := "youtube",
            message := "Successfully uploaded \"" ++ asset.title ++ "\" to YouTube (Test Mode)",
            url := some ("https://www.youtube.com/watch?v=test-video-" ++ toString env.now),
            error := none },
        refreshCalled := false, oauthInvoked := false } ∧
    uploadToInstagram now asset ci =
      { success := true, platform := "instagram",
        message := "Successfully uploaded \"" ++ asset.title ++ "\" to Instagram (Test Mode)",
        url := some ("https://www.instagram.com/p/test-post-" ++ toString now ++ "/"),
        error := none } ∧
    uploadToFacebook now asset cf =
      { success := true, platform := "facebook",
        message := "Successfully uploaded \"" ++ asset.title ++ "\" to Facebook (Test Mode)",
        url := some ("https://www.facebook.com/posts/test-facebook-post-" ++ toString now),
        error := none } := by
  refine ⟨?_, ?_, ?_⟩
  · simp [uploadToYouTube, hy]
  · simp [uploadToInstagram, hi]
  · simp [uploadToFacebook, hf]

/-- Test-sentinel Instagram and Facebook connections. -/
def demoIgConn : SocialConnection :=
  { id := "c4", platform := "instagram", access_token := "demo_access_token_instagram",
    refresh_token := none, token_expires_at := none, is_active := true }

def demoFbConn : SocialConnection :=
  { id := "c5", platform := "facebook", access_token := "demo_access_token_facebook",
    refresh_token := none, token_expires_at := none, is_active := true }

/-- Closed instance of `sentinel_connections_simulate` at the three
demo-token connections. -/
theorem sentinel_connections_simulate_witness :
    isTestYouTubeConnection demoYtConn = true ∧
    demoIgConn.access_token = "demo_access_token_instagram" ∧
    demoFbConn.access_token = "demo_access_token_facebook" ∧
    (uploadToYouTube envSoon imageAsset demoYtConn).result.success = true ∧
    (uploadToInstagram 7 imageAsset demoIgConn).url =
      some "https://www.instagram.com/p/test-post-7/" ∧
    (uploadToFacebook 7 imageAsset demoFbConn).url =
      some "https://www.facebook.com/posts/test-facebook-post-7" := by
  have h := sentinel_connections_simulate envSoon 7 imageAsset
    demoYtConn demoIgConn demoFbConn rfl rfl rfl
  refine ⟨rfl, rfl, rfl, ?_, ?_, ?_⟩
  · rw [h.1]
  · rw [h.2.1]
    rfl
  · rw [h.2.2]
    rfl

/-! ## Multi-platform fan-out (`uploadToSocialMedia`)

`uploadToSocialMedia(asset, selectedPlatforms)` loads the active
connections, filters them down to the selected platforms, bails out
with `[]` when nothing matches, dispatches one unit of work per
remaining connection via `Promise.all`, and returns the collected
results.  The per-connection unit has no `catch`, so one rejected
promise rejects `Promise.all` and the surrounding `catch` returns `[]`.
Each per-platform upload function is passed in as a function that
either returns a result (`Except.ok`) or throws (`Except.error`). -/

/-- One per-platform adapter as seen by the fan-out: returns an
`UploadResult` or throws. -/
def Adapter : Type :=
  AssetToUpload → SocialConnection → Except String UploadResult

/-- The `switch (connection.platform)` dispatch inside the fan-out. -/
def dispatchPlatform (yt ig fb : Adapter) (asset : AssetToUpload)
    (conn : SocialConnection) : Except String UploadResult :=
  if conn.platform = "youtube" then yt asset conn
  else if conn.platform = "instagram" then ig asset conn
  else if conn.platform = "facebook" then fb asset conn
  else Except.ok
    { success := false, platform := conn.platform,
      message := "Upload to " ++ conn.platform ++ " is not yet supported.",
      url := none, error := some "Platform not supported" }

/-- Source: `await Promise.all(...)`: all units run; if any throws, the whole
aggregation throws (with the first throwing unit's error). -/
def collectAll (f : SocialConnection → Except String UploadResult) :
    List SocialConnection → Except String (List UploadResult)
  | [] => Except.ok []
  | c :: cs =>
    match f c, collectAll f cs with
    | Except.ok r, Except.ok rs => Except.ok (r :: rs)
    | Except.error e, _ => Except.error e
    | Except.ok _, Except.error e => Except.error e

/-- Function `uploadToSocialMedia` of `useSocialMediaUpload`: `connections` is
what `getConnectedPlatforms()` returned (the active connections). -/
def uploadToSocialMedia (yt ig fb : Adapter) (asset : AssetToUpload)
    (connections : List SocialConnection)
    (selectedPlatforms : List String) : List UploadResult :=
  if connections.isEmpty then []
  else
    let selectedConnections :=
      connections.filter (fun conn => selectedPlatforms.contains conn.platform)
    if selectedConnections.isEmpty then []
    else
      match collectAll (dispatchPlatform yt ig fb asset) selectedConnections with
      | Except.ok results => results
      | Except.error _ => []

/-- Whether the adapter call threw. -/
def isThrown : Except String UploadResult → Bool
  | Except.error _ => true
  | Except.ok _ => false

/-- If no unit throws, `Promise.all` yields one result per unit. -/
theorem collectAll_ok_of_none_thrown (f : SocialConnection → Except String UploadResult) :
    ∀ l : List SocialConnection, (∀ c ∈ l, isThrown (f c) = false) →
      ∃ rs, collectAll f l = Except.ok rs ∧ rs.length = l.length := by
  intro l
  induction l with
  | nil => exact fun _ => ⟨[], rfl, rfl⟩
  | cons c cs ih =>
    intro h
    have hc := h c (List.mem_cons_self c cs)
    obtain ⟨rs, hrs, hlen⟩ := ih (fun d hd => h d (List.mem_cons_of_mem c hd))
    cases hfc : f c with
    | error e => rw [hfc] at hc; simp [isThrown] at hc
    | ok r =>
      refine ⟨r :: rs, ?_, by simp [hlen]⟩
      simp [collectAll, hfc, hrs]

/-- If some unit throws, `Promise.all` throws. -/
theorem collectAll_error_of_thrown (f : SocialConnection → Except String UploadResult) :
    ∀ l : List SocialConnection, (∃ c ∈ l, isThrown (f c) = true) →
      ∃ e, collectAll f l = Except.error e := by
  intro l
  induction l with
  | nil => rintro ⟨c, hc, -⟩; cases hc
  | cons c cs ih =>
    rintro ⟨d, hd, hthrow⟩
    rcases List.mem_cons.mp hd with rfl | hd2
    · cases hfd : f d with
      | error e => exact ⟨e, by simp [collectAll, hfd]⟩
      | ok r => rw [hfd] at hthrow; simp [isThrown] at hthrow
    · obtain ⟨e, he⟩ := ih ⟨d, hd2, hthrow⟩
      cases hfc : f c with
      | error e2 => exact ⟨e2, by simp [collectAll, hfc]⟩
      | ok r => exact ⟨e, by simp [collectAll, hfc, he]⟩

/-- A stub adapter that always returns a result. -/
def okStub : Adapter :=
  fun _ conn => Except.ok
    { success := true, platform := conn.platform, message := "ok",
      url := none, error := none }

/-- A stub adapter that always throws. -/
def throwStub : Adapter :=
  fun _ _ => Except.error "boom"

/-- A connected facebook credential. -/
def fbConn : SocialConnection :=
  { id := "c6", platform := "facebook", access_token := "fb-token",
    refresh_token := none, token_expires_at := none, is_active := true }

/-- A connected youtube credential. -/
def ytConn : SocialConnection :=
  { id := "c7", platform := "youtube", access_token := "yt-token",
    refresh_token := none, token_expires_at := none, is_active := true }

/-- C1 counterexample: requesting `facebook` with no active facebook
credential returns the empty list — zero entries, not exactly one
NotConnected-style entry — and when the youtube adapter throws while a
facebook connection is also selected, the whole call returns the empty
list, discarding the facebook result instead of keeping one entry per
platform. -/
theorem uploadToSocialMedia_counterexample :
    uploadToSocialMedia okStub okStub okStub imageAsset [] ["facebook"] = [] ∧
    (uploadToSocialMedia okStub okStub okStub imageAsset [] ["facebook"]).length ≠ 1 ∧
    uploadToSocialMedia throwStub okStub okStub imageAsset [ytConn, fbConn]
      ["youtube", "facebook"] = [] := by
  refine ⟨rfl, by decide, rfl⟩

/-- C1 (amended): the fan-out yields one `UploadResult` per selected
platform that has an active connection — requested platforms without a
connection are silently dropped rather than reported — and only when no
adapter throws: if every dispatched unit returns, the result list has
exactly one entry per selected connection, and if any dispatched unit
throws, the whole call returns `[]`, dropping the sibling platforms'
results as well. -/
theorem uploadToSocialMedia_unfold_empty (yt ig fb : Adapter)
    (asset : AssetToUpload) (connections : List SocialConnection)
    (selectedPlatforms : List String) (h : connections.isEmpty = true) :
    uploadToSocialMedia yt ig fb asset connections selectedPlatforms = [] := by
  simp only [uploadToSocialMedia, h]
  rfl

theorem uploadToSocialMedia_noMatch (yt ig fb : Adapter)
    (asset : AssetToUpload) (connections : List SocialConnection)
    (selectedPlatforms : List String)
    (hconn : connections.isEmpty = false)
    (hsel : (connections.filter
      (fun conn => selectedPlatforms.contains conn.platform)).isEmpty = true) :
    uploadToSocialMedia yt ig fb asset connections selectedPlatforms = [] := by
  simp only [uploadToSocialMedia, hconn, hsel]
  rfl

theorem uploadToSocialMedia_dispatch_eq (yt ig fb : Adapter)
    (asset : AssetToUpload) (connections : List SocialConnection)
    (selectedPlatforms : List String)
    (hconn : connections.isEmpty = false)
    (hsel : (connections.filter
      (fun conn => selectedPlatforms.contains conn.platform)).isEmpty = false) :
    uploadToSocialMedia yt ig fb asset connections selectedPlatforms =
      match collectAll (dispatchPlatform yt ig fb asset)
          (connections.filter (fun conn => selectedPlatforms.contains conn.platform)) with
      | Except.ok results => results
      | Except.error _ => [] := by
  simp only [uploadToSocialMedia, hconn, hsel]
  rfl

theorem uploadToSocialMedia_per_connection (yt ig fb : Adapter)
    (asset : AssetToUpload) (connections : List SocialConnection)
    (selectedPlatforms : List String) :
    ((∀ c ∈ connections.filter (fun conn => selectedPlatforms.contains conn.platform),
        isThrown (dispatchPlatform yt ig fb asset c) = false) →
      (uploadToSocialMedia yt ig fb asset connections selectedPlatforms).length =
        (connections.filter (fun conn => selectedPlatforms.contains conn.platform)).length) ∧
    ((∃ c ∈ connections.filter (fun conn => selectedPlatforms.contains conn.platform),
        isThrown (dispatchPlatform yt ig fb asset c) = true) →
      uploadToSocialMedia yt ig fb asset connections selectedPlatforms = []) := by
  constructor
  · intro hok
    cases hconn : connections.isEmpty with
    | true =>
      have h0 := List.isEmpty_iff.mp hconn
      rw [h0]
      rfl
    | false =>
      cases hsel : (connections.filter
          (fun conn => selectedPlatforms.contains conn.platform)).isEmpty with
      | true =>
        have h0 := List.isEmpty_iff.mp hsel
        rw [uploadToSocialMedia_noMatch yt ig fb asset connections selectedPlatforms
          hconn hsel, h0]
        rfl
      | false =>
        obtain ⟨rs, hrs, hlen⟩ := collectAll_ok_of_none_thrown _ _ hok
        rw [uploadToSocialMedia_dispatch_eq yt ig fb asset connections selectedPlatforms
          hconn hsel, hrs]
        exact hlen
  · intro hbad
    cases hconn : connections.isEmpty with
    | true =>
      exact uploadToSocialMedia_unfold_empty yt ig fb asset connections
        selectedPlatforms hconn
    | false =>
      cases hsel : (connections.filter
          (fun conn => selectedPlatforms.contains conn.platform)).isEmpty with
      | true =>
        exact uploadToSocialMedia_noMatch yt ig fb asset connections
          selectedPlatforms hconn hsel
      | false =>
        obtain ⟨e, he⟩ := collectAll_error_of_thrown _ _ hbad
        rw [uploadToSocialMedia_dispatch_eq yt ig fb asset connections selectedPlatforms
          hconn hsel, he]

/-- Closed instance of `uploadToSocialMedia_per_connection`: two
selected, connected platforms whose adapters both return give exactly
two results. -/
theorem uploadToSocialMedia_per_connection_witness :
    (uploadToSocialMedia okStub okStub okStub imageAsset [ytConn, fbConn]
      ["youtube", "facebook"]).length = 2 := by
  have h :=
    (uploadToSocialMedia_per_connection okStub okStub okStub imageAsset
      [ytConn, fbConn] ["youtube", "facebook"]).1 (by decide)
  exact h.trans (by decide)

/-! ## Edge-function error responses

Each Supabase edge function wraps its request handling in
`try { ... } catch (error) { return new Response(...) }`.  All success
paths return JSON with the default status 200; the catch handlers
differ: `youtube-oauth` deliberately returns status 200 with
`success: false` in the body, while `youtube-upload` and
`instagram-oauth` return status 400. -/

/-- An edge function's HTTP response as far as status and the
`success`/`error` body fields are concerned. -/
structure EdgeResponse where
  status : Nat
  success : Bool
  error : Option String
deriving DecidableEq

/-- The `youtube-oauth` serve wrapper: every handled request gets
status 200; a caught error is reported only in the body. -/
def youtubeOauthServe (outcome : Except String Unit) : EdgeResponse :=
  match outcome with
  | Except.ok _ => { status := 200, success := true, error := none }
  | Except.error msg => { status := 200, success := false, error := some msg }

/-- The `youtube-upload` serve wrapper: a caught error gets status 400. -/
def youtubeUploadServe (outcome : Except String Unit) : EdgeResponse :=
  match outcome with
  | Except.ok _ => { status := 200, success := true, error := none }
  | Except.error msg => { status := 400, success := false, error := some msg }

/-- The `instagram-oauth` serve wrapper: a caught error gets status 400. -/
def instagramOauthServe (outcome : Except String Unit) : EdgeResponse :=
  match outcome with
  | Except.ok _ => { status := 200, success := true, error := none }
  | Except.error msg => { status := 400, success := false, error := some msg }

/-- C9: every handled `youtube-oauth` request is answered with HTTP
status 200 — failure shows up only as `success := false` plus an error
message in the body, never in the status — whereas the sibling
`youtube-upload` and `instagram-oauth` functions answer errors with
status 400. -/
theorem youtubeOauth_masks_errors_with_200 (outcome : Except String Unit) (msg : String) :
    (youtubeOauthServe outcome).status = 200 ∧
    youtubeOauthServe (Except.error msg) =
      { status := 200, success := false, error := some msg } ∧
    ((youtubeOauthServe outcome).success = false ↔ ∃ m, outcome = Except.error m) ∧
    (youtubeUploadServe (Except.error msg)).status = 400 ∧
    (instagramOauthServe (Except.error msg)).status = 400 := by
  cases outcome <;>
    simp [youtubeOauthServe, youtubeUploadServe, instagramOauthServe]
